import Mathlib

/-!
Shallow embedding of the rental-property search service
(`src/main.py`, `src/services/elasticsearch_service.py`,
`src/config/settings.py`, `src/config/production_settings.py`).

Elasticsearch request bodies are Python dicts built by the code; they are
embedded as a JSON value tree (`Json`) whose object fields keep insertion
order, so structural equality of `Json` values coincides with byte-for-byte
equality of the serialized dicts.  The external document store, the
Vertex-AI embedding endpoint and the environment flags
(`GOOGLE_CLOUD_INITIALIZED`, `ELASTICSEARCH_INITIALIZED`) are passed in as
explicit parameters; fallible external calls are modelled with `Except`.
-/

/-- JSON-like value tree for Elasticsearch request bodies.  Object fields
are an association list in insertion order, mirroring Python dicts. -/
inductive Json where
  | str : String → Json
  | num : Rat → Json
  | arr : List Json → Json
  | obj : List (String × Json) → Json

/-- Field lookup in a JSON object (first binding wins, as in a dict). -/
def objLookup (j : Json) (key : String) : Option Json :=
  match j with
  | .obj kvs => kvs.lookup key
  | _ => none

/-- Clause (a) of the base query in `build_elasticsearch_query`
(src/main.py:244-251): fuzzy multi-field match over
name^3, description^2, property_type^2, city^2, area, amenities. -/
def multiMatchClause (query : String) : Json :=
  .obj [("multi_match", .obj [
    ("query", .str query),
    ("fields", .arr [.str "name^3", .str "description^2", .str "property_type^2",
                     .str "city^2", .str "area", .str "amenities"]),
    ("type", .str "best_fields"),
    ("fuzziness", .str "AUTO")])]

/-- Clause (b) of the base query (src/main.py:252-259): match on the
denormalized `combined_text` field with boost 1.5. -/
def combinedTextClause (query : String) : Json :=
  .obj [("match", .obj [("combined_text", .obj [
    ("query", .str query), ("boost", .num 1.5)])])]

/-- A single-field `match` clause with a boost, as appended by the
semantic/hybrid branches of `build_elasticsearch_query`. -/
def matchClause (field : String) (query : String) (boost : Rat) : Json :=
  .obj [("match", .obj [(field, .obj [
    ("query", .str query), ("boost", .num boost)])])]

/-- `build_elasticsearch_query(query, search_type)` (src/main.py:238-320).
The Python code builds `base_query` with a `should` list of the two base
clauses and `minimum_should_match: 1`, then — depending on `search_type`
and the global `GOOGLE_CLOUD_INITIALIZED` flag — extends the `should`
list in place before returning.  The flag is threaded explicitly here. -/
def build_elasticsearch_query (query : String) (search_type : String)
    (google_cloud_initialized : Bool) : Json :=
  let baseShould := [multiMatchClause query, combinedTextClause query]
  let should :=
    if search_type == "semantic" && google_cloud_initialized then
      baseShould ++ [matchClause "target_audience" query 2.5,
                     matchClause "special_features" query 1.5,
                     matchClause "platform_focus" query 1.2]
    else if search_type == "hybrid" && google_cloud_initialized then
      baseShould ++ [matchClause "target_audience" query 2.0,
                     matchClause "special_features" query 1.5]
    else
      baseShould
  .obj [("bool", .obj [("should", .arr should), ("minimum_should_match", .num 1)])]

/-- The `should` clause list of a compiled query. -/
def shouldClauses (j : Json) : List Json :=
  match (objLookup j "bool").bind (fun b => objLookup b "should") with
  | some (.arr cs) => cs
  | _ => []

/-- The `minimum_should_match` value of a compiled query. -/
def minimumShouldMatch (j : Json) : Option Json :=
  (objLookup j "bool").bind (fun b => objLookup b "minimum_should_match")

/-- `SearchRequest` (src/main.py:41-44): query string, result limit,
requested search type. -/
structure SearchRequest where
  query : String
  limit : Nat
  search_type : String

/-- Pydantic validation of `SearchRequest` (src/main.py:41-44):
`query` has `min_length=1`, `limit` has `ge=1, le=50`; `search_type` is a
plain `str` field with no constraint, so any string is accepted. -/
def parseSearchRequest (query : String) (limit : Nat) (search_type : String) :
    Except String SearchRequest :=
  if query.length < 1 then .error "query: string should have at least 1 character"
  else if limit < 1 then .error "limit: input should be greater than or equal to 1"
  else if limit > 50 then .error "limit: input should be less than or equal to 50"
  else .ok ⟨query, limit, search_type⟩

/-- A hit source document as read by the search endpoint
(src/main.py:419-437); every field is read with `source.get(key, default)`,
so presence is modelled with `Option`. -/
structure PropertySource where
  property_id : Option String := none
  name : Option String := none
  description : Option String := none
  property_type : Option String := none
  platform_name : Option String := none
  platform_description : Option String := none
  platform_focus : Option String := none
  target_audience : Option (List String) := none
  special_features : Option (List String) := none
  price : Option Int := none
  area_sqft : Option Int := none
  bedrooms : Option Int := none
  amenities : Option (List String) := none
  area : Option String := none
  city : Option String := none
  state : Option String := none

/-- One Elasticsearch hit: `_source` plus optional `_score`
(`hit.get("_score", 0)` in src/main.py:437). -/
structure Hit where
  source : PropertySource
  score : Option Rat := none

/-- `PropertyResponse` (src/main.py:46-64). -/
structure PropertyResponse where
  id : String
  name : String
  description : String
  property_type : String
  platform_name : String
  platform_description : String
  platform_focus : String
  target_audience : List String
  special_features : List String
  price : Int
  area_sqft : Int
  bedrooms : Int
  amenities : List String
  area : String
  city : String
  state : String
  elasticsearch_score : Rat
  search_type : String

/-- Mapping of one hit into a `PropertyResponse` (src/main.py:420-439);
the per-result label is `elasticsearch_{request.search_type}_search`. -/
def toPropertyResponse (request_search_type : String) (h : Hit) : PropertyResponse :=
  { id := h.source.property_id.getD ""
    name := h.source.name.getD ""
    description := h.source.description.getD ""
    property_type := h.source.property_type.getD ""
    platform_name := h.source.platform_name.getD ""
    platform_description := h.source.platform_description.getD ""
    platform_focus := h.source.platform_focus.getD ""
    target_audience := h.source.target_audience.getD []
    special_features := h.source.special_features.getD []
    price := h.source.price.getD 0
    area_sqft := h.source.area_sqft.getD 0
    bedrooms := h.source.bedrooms.getD 0
    amenities := h.source.amenities.getD []
    area := h.source.area.getD ""
    city := h.source.city.getD ""
    state := h.source.state.getD ""
    elasticsearch_score := h.score.getD 0
    search_type := "elasticsearch_" ++ request_search_type ++ "_search" }

/-- `SearchResponse` (src/main.py:66-75). -/
structure SearchResponse where
  query : String
  results : List PropertyResponse
  total : Nat
  platform : String
  search_type : String
  data_source : String
  elasticsearch_integration : Json
  ai_features : Json
  status : String

/-- An HTTPException raised by an endpoint: status code and detail. -/
structure HttpError where
  status_code : Nat
  detail : String

/-- The `/api/v1/search` endpoint `search_properties` (src/main.py:391-465).
`google_cloud_initialized` / `elasticsearch_initialized` model the global
flags; `exec_search` models `es_service.sync_client.search` (its failure
models a raised exception, caught at src/main.py:463-465 and turned into a
500 error); `es_url` models `settings.get_elasticsearch_url()`. -/
def search_properties (google_cloud_initialized elasticsearch_initialized : Bool)
    (es_url : String) (request : SearchRequest)
    (exec_search : Json → Nat → Except String (List Hit)) :
    Except HttpError SearchResponse :=
  if !elasticsearch_initialized then
    .error ⟨503, "Elasticsearch service not available"⟩
  else
    match exec_search
        (build_elasticsearch_query request.query request.search_type
          google_cloud_initialized) request.limit with
    | .error e => .error ⟨500, "Search failed: " ++ e⟩
    | .ok hits =>
      let results := hits.map (toPropertyResponse request.search_type)
      .ok { query := request.query
            results := results
            total := results.length
            platform := "google-cloud"
            search_type := request.search_type
            data_source := "elasticsearch_real_data"
            elasticsearch_integration := .obj [
              ("status", .str "active"),
              ("service", .str "real_elasticsearch"),
              ("endpoint", .str es_url)]
            ai_features := .obj [
              ("embeddings", .str "google_cloud_vertex_ai"),
              ("semantic_search",
                .str (if google_cloud_initialized then "enabled" else "disabled")),
              ("natural_language", .str "enabled"),
              ("query_understanding", .str "enabled")]
            status := "success" }

/-- A sampled hit source as read by the stats endpoint
(src/main.py:497-504): the code tests `"field" in source`, so presence is
modelled with `Option`. -/
structure StatsSource where
  property_type : Option String := none
  city : Option String := none
  platform_name : Option String := none

/-- `StatsResponse` (src/main.py:86-95). -/
structure StatsResponse where
  total_properties : Nat
  property_types : List String
  platforms : List String
  cities : List String
  platform : String
  project_id : String
  data_source : String
  elasticsearch_integration : Json
  status : String

/-- Accumulation of a value into a Python `set`, projected to a duplicate-free
list (`set.add` keeps one copy of each value; `list(s)` enumerates it). -/
def addUnique (acc : List String) (v : String) : List String :=
  if acc.contains v then acc else acc ++ [v]

/-- The distinct values of one optional field over the sampled hits,
mirroring the `set()` accumulation loop of src/main.py:493-504. -/
def collectValues (f : StatsSource → Option String) (hits : List StatsSource) :
    List String :=
  hits.foldl (fun acc s =>
    match f s with
    | some v => addUnique acc v
    | none => acc) []

/-- The `/api/v1/stats` endpoint `get_stats` (src/main.py:468-524).
`exec_count` models `sync_client.count` and `exec_sample` models
`sync_client.search(index=..., size=n)` — the code passes `size=100`; a
failure of either models a raised exception caught at src/main.py:522-524.
Each facet list is truncated with `[:20]`. -/
def get_stats (elasticsearch_initialized : Bool) (project_id : String)
    (exec_count : Except String Nat)
    (exec_sample : Nat → Except String (List StatsSource)) :
    Except HttpError StatsResponse :=
  if !elasticsearch_initialized then
    .error ⟨503, "Elasticsearch service not available"⟩
  else
    match exec_count with
    | .error e => .error ⟨500, "Failed to get stats: " ++ e⟩
    | .ok total_properties =>
      match exec_sample 100 with
      | .error e => .error ⟨500, "Failed to get stats: " ++ e⟩
      | .ok hits =>
        .ok { total_properties := total_properties
              property_types := (collectValues (fun s => s.property_type) hits).take 20
              platforms := (collectValues (fun s => s.platform_name) hits).take 20
              cities := (collectValues (fun s => s.city) hits).take 20
              platform := "google-cloud"
              project_id := project_id
              data_source := "elasticsearch_real_data"
              elasticsearch_integration := .obj [
                ("status", .str "active"),
                ("features", .arr [.str "hybrid_search", .str "semantic_search",
                                   .str "vector_embeddings", .str "natural_language"]),
                ("ai_models", .str "google_cloud_vertex_ai")]
              status := "success" }

/-- The search-weight configuration fields of `Settings`
(src/config/settings.py:46-47). -/
structure Settings where
  hybrid_search_weight_vector : Rat
  hybrid_search_weight_keyword : Rat

/-- The search-weight configuration fields of `ProductionSettings`
(src/config/production_settings.py:50-51). -/
structure ProductionSettings where
  hybrid_search_weight_vector : Rat
  hybrid_search_weight_keyword : Rat

/-- `Settings.validate_weights` (src/config/settings.py:67-73):
`if not 0 <= v <= 1: raise ValueError(...)`, else return `v`. -/
def validate_weights (v : Rat) : Except String Rat :=
  if ¬(0 ≤ v ∧ v ≤ 1) then .error "Weight must be between 0 and 1"
  else .ok v

/-- `ProductionSettings.validate_weights`
(src/config/production_settings.py:66-72), textually identical to the
`Settings` validator. -/
def production_validate_weights (v : Rat) : Except String Rat :=
  if ¬(0 ≤ v ∧ v ≤ 1) then .error "Weight must be between 0 and 1"
  else .ok v

/-- Construction of `Settings` (the module-level `settings = Settings()`,
src/config/settings.py:100): pydantic runs `validate_weights` on both
weight fields at construction time, i.e. at module load / process startup;
a validator failure aborts construction. -/
def mkSettings (weight_vector weight_keyword : Rat) : Except String Settings :=
  match validate_weights weight_vector, validate_weights weight_keyword with
  | .ok a, .ok b => .ok ⟨a, b⟩
  | .error e, _ => .error e
  | _, .error e => .error e

/-- Construction of `ProductionSettings`
(src/config/production_settings.py:99), analogous to `mkSettings`. -/
def mkProductionSettings (weight_vector weight_keyword : Rat) :
    Except String ProductionSettings :=
  match production_validate_weights weight_vector,
        production_validate_weights weight_keyword with
  | .ok a, .ok b => .ok ⟨a, b⟩
  | .error e, _ => .error e
  | _, .error e => .error e

/-- The prioritized embedding-model list of `generate_real_embedding`
(src/main.py:214-219). -/
def models_to_try : List String :=
  ["textembedding-gecko@003", "textembedding-gecko@002",
   "textembedding-gecko@001", "text-multilingual-embedding-002"]

/-- The fallback loop of `generate_real_embedding` (src/main.py:221-232):
each model is tried in order; an exception from one model is caught and the
next model is tried (`continue`); the first vector returned wins; when the
list is exhausted the function returns `[]`.  `get_embedding m = none`
models model `m` raising an exception. -/
def tryModelsInOrder (get_embedding : String → Option (List Rat)) :
    List String → List Rat
  | [] => []
  | m :: rest =>
    match get_embedding m with
    | some v => v
    | none => tryModelsInOrder get_embedding rest

/-- `generate_real_embedding` (src/main.py:207-236): returns `[]` when
Google Cloud is not initialized or its libraries are unavailable, otherwise
runs the model-fallback loop over `models_to_try`. -/
def generate_real_embedding (google_cloud_initialized google_cloud_available : Bool)
    (get_embedding : String → Option (List Rat)) : List Rat :=
  if !google_cloud_initialized || !google_cloud_available then []
  else tryModelsInOrder get_embedding models_to_try

/-- A stored property document as used by the recommendation engine
(src/services/elasticsearch_service.py): `embedding` presence is tested
with `"embedding" in property_data`, hence `Option`. -/
structure PropertyDoc where
  property_id : String
  property_status : String
  embedding : Option (List Rat)
deriving DecidableEq

/-- `get_property_by_id` (src/services/elasticsearch_service.py:440-450):
`client.get` either returns the document or raises (NotFoundError when the
id is absent, a transport error when the store is unreachable); every
exception is caught and mapped to `None`. -/
def get_property_by_id (fetch : Except String PropertyDoc) : Option PropertyDoc :=
  match fetch with
  | .ok d => some d
  | .error _ => none

/-- The similarity query issued by `get_property_recommendations`
(src/services/elasticsearch_service.py:465-480): a `script_score` query
whose bool part excludes the source `property_id` (`must_not` term) and
filters to `property_status = "available"`, scored by
`cosineSimilarity(params.query_vector, 'embedding') + 1.0` with the source
embedding as `params.query_vector`. -/
def recommendation_query (property_id : String) (query_vector : List Rat) : Json :=
  .obj [("script_score", .obj [
    ("query", .obj [("bool", .obj [
      ("must_not", .obj [("term", .obj [("property_id", .str property_id)])]),
      ("filter", .arr [.obj [("term", .obj [("property_status", .str "available")])]])])]),
    ("script", .obj [
      ("source", .str "cosineSimilarity(params.query_vector, \x27embedding\x27) + 1.0"),
      ("params", .obj [("query_vector", .arr (query_vector.map Json.num))])])])]

/-- A term-query check against a stored document: the two keyword fields
the recommendation query constrains. -/
def docFieldValue (d : PropertyDoc) (field : String) : Option String :=
  if field == "property_id" then some d.property_id
  else if field == "property_status" then some d.property_status
  else none

/-- Elasticsearch `term` query semantics on a stored document. -/
def matchesTerm (d : PropertyDoc) (field value : String) : Bool :=
  docFieldValue d field == some value

/-- Document-store matching semantics for the exact query shape issued by
the recommendation engine: a `script_score` wrapping a `bool` with one
`must_not` term and one `filter` term matches a document iff the document
fails the `must_not` term and satisfies the `filter` term (the script only
scores, it does not filter). -/
def evalRecQuery (d : PropertyDoc) (q : Json) : Bool :=
  match q with
  | .obj [("script_score", .obj [
      ("query", .obj [("bool", .obj [
        ("must_not", .obj [("term", .obj [(f1, .str v1)])]),
        ("filter", .arr [.obj [("term", .obj [(f2, .str v2)])]])])]),
      ("script", _)])] =>
    (!matchesTerm d f1 v1) && matchesTerm d f2 v2
  | _ => false

/-- Document-store execution of a recommendation query over a catalog:
matching documents in some store-chosen order (the catalog list is
universally quantified, so any score order is an instance), truncated to
the requested size. -/
def execSearch (q : Json) (catalog : List PropertyDoc) (size : Nat) :
    List PropertyDoc :=
  (catalog.filter (fun d => evalRecQuery d q)).take size

/-- A document store holding `catalog` and honouring the matching
semantics above, wrapped as a fallible search operation. -/
def execStore (catalog : List PropertyDoc) :
    Json → Nat → Except String (List PropertyDoc) :=
  fun q size => .ok (execSearch q catalog size)

/-- `get_property_recommendations`
(src/services/elasticsearch_service.py:452-492).  `fetch` models the
`client.get` outcome for the source id and `search` models `client.search`;
when the source document is missing or has no embedding the function
returns `[]`; the surrounding `except Exception` catches any search failure
and returns `[]` as well (src/services/elasticsearch_service.py:490-492). -/
def get_property_recommendations (property_id : String)
    (fetch : Except String PropertyDoc)
    (search : Json → Nat → Except String (List PropertyDoc))
    (limit : Nat) : List PropertyDoc :=
  match get_property_by_id fetch with
  | none => []
  | some d =>
    match d.embedding with
    | none => []
    | some vec =>
      match search (recommendation_query property_id vec) limit with
      | .ok hits => hits
      | .error _ => []

/-- The script source string of a compiled recommendation query. -/
def scriptSourceOf (q : Json) : Option Json :=
  (objLookup q "script_score").bind (fun s =>
    (objLookup s "script").bind (fun sc => objLookup sc "source"))

/-- The `params.query_vector` of a compiled recommendation query. -/
def scriptQueryVectorOf (q : Json) : Option Json :=
  (objLookup q "script_score").bind (fun s =>
    (objLookup s "script").bind (fun sc =>
      (objLookup sc "params").bind (fun p => objLookup p "query_vector")))

/-- A concrete hit used to exercise the search endpoint. -/
def hit0 : Hit :=
  { source := { property_id := some "prop-1", name := some "Skyline Towers",
                city := some "Pune" }
    score := some 12 }

/-- A concrete source property with an embedding. -/
def doc0 : PropertyDoc := ⟨"p1", "available", some [1, 0, 0]⟩

/-- A concrete available candidate distinct from the source. -/
def docP2 : PropertyDoc := ⟨"p2", "available", some [1, 1, 0]⟩

/-- A concrete non-available candidate. -/
def docP3 : PropertyDoc := ⟨"p3", "sold", none⟩

/-- A concrete catalog containing the source, an available candidate and a
sold one. -/
def catalog0 : List PropertyDoc := [docP2, doc0, docP3]

/-- A concrete sampled stats page. -/
def sample0 : List StatsSource :=
  [{ property_type := some "apartment", city := some "Pune", platform_name := some "A" },
   { property_type := some "villa", city := some "Pune", platform_name := none },
   { property_type := some "apartment", city := some "Mumbai", platform_name := some "B" }]

/-- A concrete embedding backend where only the second model succeeds. -/
def get_embedding0 : String → Option (List Rat) :=
  fun m => if m == "textembedding-gecko@002" then some [1, 2] else none

/-! ## Helper lemmas -/

/-- With the AI flag down, every search type compiles to the keyword base
query: both augmentation branches are guarded by `&& google_cloud_initialized`. -/
theorem build_degraded_eq (q st : String) :
    build_elasticsearch_query q st false = build_elasticsearch_query q "keyword" false := by
  simp [build_elasticsearch_query]

/-- A search type other than "semantic" and "hybrid" compiles to the keyword
base query for either state of the AI flag. -/
theorem build_unknown_mode_eq (q st : String) (gc : Bool)
    (h2 : st ≠ "semantic") (h3 : st ≠ "hybrid") :
    build_elasticsearch_query q st gc = build_elasticsearch_query q "keyword" gc := by
  have e2 : (st == "semantic") = false := beq_false_of_ne h2
  have e3 : (st == "hybrid") = false := beq_false_of_ne h3
  simp [build_elasticsearch_query, e2, e3]

/-- Trying a list of all-failing models yields the empty embedding. -/
theorem tryModelsInOrder_all_none (f : String → Option (List Rat))
    (ms : List String) (h : ∀ m ∈ ms, f m = none) :
    tryModelsInOrder f ms = [] := by
  induction ms with
  | nil => rfl
  | cons m rest ih =>
    rw [tryModelsInOrder, h m (List.mem_cons_self m rest)]
    exact ih (fun m2 hm2 => h m2 (List.mem_cons_of_mem m hm2))

/-- The first model that returns a vector determines the result. -/
theorem tryModelsInOrder_first_success (f : String → Option (List Rat))
    (pre : List String) (m : String) (rest : List String) (v : List Rat)
    (hpre : ∀ m2 ∈ pre, f m2 = none) (hm : f m = some v) :
    tryModelsInOrder f (pre ++ m :: rest) = v := by
  induction pre with
  | nil => rw [List.nil_append, tryModelsInOrder, hm]
  | cons p ptl ih =>
    rw [List.cons_append, tryModelsInOrder, hpre p (List.mem_cons_self p ptl)]
    exact ih (fun m2 hm2 => hpre m2 (List.mem_cons_of_mem p hm2))

/-! ## Claim theorems -/

/-- C2: for every query string, with the AI subsystem unavailable
(`GOOGLE_CLOUD_INITIALIZED = false`) the query compiled with
`search_type = "semantic"` and the one compiled with `search_type =
"hybrid"` are each structurally (hence byte-for-byte, object order
included) identical to the query compiled with `search_type = "keyword"`. -/
theorem degraded_compile_eq_keyword (q : String) :
    build_elasticsearch_query q "semantic" false =
      build_elasticsearch_query q "keyword" false ∧
    build_elasticsearch_query q "hybrid" false =
      build_elasticsearch_query q "keyword" false :=
  ⟨build_degraded_eq q "semantic", build_degraded_eq q "hybrid"⟩

/-- C4: for every mode in {keyword, semantic, hybrid}, every non-empty
query string and either state of the AI flag, the compiled query's
top-level bool clause has `minimum_should_match = 1` and its `should` list
starts with the two base disjuncts: the fuzzy multi-field match over
name^3, description^2, property_type^2, city^2, area (locality), amenities
(`multiMatchClause`) and the `combined_text` match with boost 1.5
(`combinedTextClause`). -/
theorem base_clauses_always_present (q st : String) (gc : Bool)
    (hst : st = "keyword" ∨ st = "semantic" ∨ st = "hybrid") (hq : q ≠ "") :
    minimumShouldMatch (build_elasticsearch_query q st gc) = some (.num 1) ∧
    (shouldClauses (build_elasticsearch_query q st gc)).take 2 =
      [multiMatchClause q, combinedTextClause q] := by
  rcases hst with rfl | rfl | rfl <;> cases gc <;> exact ⟨rfl, rfl⟩

/-- C4 witness: the property at mode "keyword", query "apartment", AI flag up. -/
theorem base_clauses_always_present_witness :
    minimumShouldMatch (build_elasticsearch_query "apartment" "keyword" true) =
      some (.num 1) ∧
    (shouldClauses (build_elasticsearch_query "apartment" "keyword" true)).take 2 =
      [multiMatchClause "apartment", combinedTextClause "apartment"] :=
  base_clauses_always_present "apartment" "keyword" true (Or.inl rfl) (by decide)

/-- C5 counterexample: with the AI subsystem available, semantic mode adds
three should-clauses beyond the two base clauses (target_audience ×2.5,
special_features ×1.5 and also platform_focus ×1.2, src/main.py:283-291),
not exactly two, so the compiled should list has 5 clauses, not 4. -/
theorem semantic_adds_three_clauses_cex :
    (shouldClauses (build_elasticsearch_query "apartment" "semantic" true)).length ≠ 4 ∧
    (shouldClauses (build_elasticsearch_query "apartment" "semantic" true)).drop 2 =
      [matchClause "target_audience" "apartment" 2.5,
       matchClause "special_features" "apartment" 1.5,
       matchClause "platform_focus" "apartment" 1.2] := by
  exact ⟨by decide, rfl⟩

/-- C5 amended: with the AI subsystem available, semantic mode adds exactly
three should-clauses beyond the base clauses — target_audience ×2.5,
special_features ×1.5 and platform_focus ×1.2 — while hybrid mode adds
exactly the two clauses target_audience ×2.0 and special_features ×1.5. -/
theorem semantic_hybrid_added_clauses (q : String) :
    shouldClauses (build_elasticsearch_query q "semantic" true) =
      [multiMatchClause q, combinedTextClause q,
       matchClause "target_audience" q 2.5,
       matchClause "special_features" q 1.5,
       matchClause "platform_focus" q 1.2] ∧
    shouldClauses (build_elasticsearch_query q "hybrid" true) =
      [multiMatchClause q, combinedTextClause q,
       matchClause "target_audience" q 2.0,
       matchClause "special_features" q 1.5] :=
  ⟨rfl, rfl⟩

/-- C1 counterexample: with the AI subsystem unavailable, a semantic-mode
request degrades to the keyword base query (third conjunct), yet the
response-level label and the per-result label both echo the requested mode
"semantic" (src/main.py:438,447) rather than the keyword path actually
used, and "semantic" is not "keyword". -/
theorem degraded_search_label_echoes_requested_mode_cex :
    (search_properties false true "http://localhost:9200"
        ⟨"apartment", 10, "semantic"⟩ (fun _ _ => .ok [hit0])).map
      SearchResponse.search_type = .ok "semantic" ∧
    (search_properties false true "http://localhost:9200"
        ⟨"apartment", 10, "semantic"⟩ (fun _ _ => .ok [hit0])).map
      (fun r => r.results.map PropertyResponse.search_type) =
      .ok ["elasticsearch_semantic_search"] ∧
    build_elasticsearch_query "apartment" "semantic" false =
      build_elasticsearch_query "apartment" "keyword" false ∧
    ("semantic" : String) ≠ "keyword" :=
  ⟨rfl, rfl, rfl, by decide⟩

/-- C1 amended: for every search request with mode semantic or hybrid made
while the AI subsystem is unavailable (and the store reachable), the
request still succeeds without error and the executed query is the
degraded keyword base query, but the mode/search_type label attached to
the response and to each returned result echoes the requested mode
(`st` and `elasticsearch_{st}_search`), not the keyword path actually
used. -/
theorem degraded_search_succeeds_label_echoes_request
    (st q es_url : String) (lim : Nat)
    (exec : Json → Nat → Except String (List Hit)) (hits : List Hit)
    (hst : st = "semantic" ∨ st = "hybrid")
    (hexec : exec (build_elasticsearch_query q st false) lim = .ok hits) :
    build_elasticsearch_query q st false =
      build_elasticsearch_query q "keyword" false ∧
    (search_properties false true es_url ⟨q, lim, st⟩ exec).map
      (fun r => (r.status, r.search_type)) = .ok ("success", st) ∧
    (search_properties false true es_url ⟨q, lim, st⟩ exec).map
      (fun r => r.results.map PropertyResponse.search_type) =
      .ok (hits.map (fun _ => "elasticsearch_" ++ st ++ "_search")) := by
  refine ⟨build_degraded_eq q st, ?_, ?_⟩
  · simp [search_properties, hexec, Except.map]
  · simp only [search_properties, hexec, Bool.not_true, Bool.false_eq_true,
      if_false, Except.map]
    simp only [List.map_map]
    clear hexec
    induction hits with
    | nil => rfl
    | cons h t ih =>
      simpa [toPropertyResponse, Function.comp] using ih

/-- C1 amended, witness at mode "semantic", query "flat", an empty page of
hits. -/
theorem degraded_search_succeeds_label_echoes_request_witness :
    build_elasticsearch_query "flat" "semantic" false =
      build_elasticsearch_query "flat" "keyword" false ∧
    (search_properties false true "http://localhost:9200" ⟨"flat", 5, "semantic"⟩
      (fun _ _ => .ok ([] : List Hit))).map
      (fun r => (r.status, r.search_type)) = .ok ("success", "semantic") ∧
    (search_properties false true "http://localhost:9200" ⟨"flat", 5, "semantic"⟩
      (fun _ _ => .ok ([] : List Hit))).map
      (fun r => r.results.map PropertyResponse.search_type) =
      .ok (([] : List Hit).map (fun _ => "elasticsearch_" ++ "semantic" ++ "_search")) :=
  degraded_search_succeeds_label_echoes_request "semantic" "flat"
    "http://localhost:9200" 5 (fun _ _ => .ok []) [] (Or.inl rfl) rfl

/-- C10: `search_type` is an unconstrained `str` field, so request
validation accepts any mode string (given a non-empty query and a limit in
1..50); an unrecognized mode falls through to the keyword base query for
either state of the AI flag; and the response's mode label echoes the
unrecognized string back. -/
theorem unknown_mode_falls_through_to_keyword
    (st q es_url : String) (lim : Nat) (gc : Bool)
    (exec : Json → Nat → Except String (List Hit)) (hits : List Hit)
    (h1 : st ≠ "keyword") (h2 : st ≠ "semantic") (h3 : st ≠ "hybrid")
    (hq : 1 ≤ q.length) (hl1 : 1 ≤ lim) (hl2 : lim ≤ 50) :
    parseSearchRequest q lim st = .ok ⟨q, lim, st⟩ ∧
    build_elasticsearch_query q st gc = build_elasticsearch_query q "keyword" gc ∧
    (exec (build_elasticsearch_query q st gc) lim = .ok hits →
      (search_properties gc true es_url ⟨q, lim, st⟩ exec).map
        SearchResponse.search_type = .ok st) := by
  refine ⟨?_, build_unknown_mode_eq q st gc h2 h3, ?_⟩
  · simp only [parseSearchRequest]
    rw [if_neg (by omega), if_neg (by omega), if_neg (by omega)]
  · intro hexec
    simp [search_properties, hexec, Except.map]

/-- C10 witness at the unrecognized mode string "vector". -/
theorem unknown_mode_falls_through_to_keyword_witness :
    parseSearchRequest "apartment" 10 "vector" = .ok ⟨"apartment", 10, "vector"⟩ ∧
    (search_properties false true "http://localhost:9200"
      ⟨"apartment", 10, "vector"⟩ (fun _ _ => .ok ([] : List Hit))).map
      SearchResponse.search_type = .ok "vector" :=
  ⟨(unknown_mode_falls_through_to_keyword "vector" "apartment"
      "http://localhost:9200" 10 false (fun _ _ => .ok []) []
      (by decide) (by decide) (by decide) (by decide) (by decide) (by decide)).1,
   (unknown_mode_falls_through_to_keyword "vector" "apartment"
      "http://localhost:9200" 10 false (fun _ _ => .ok []) []
      (by decide) (by decide) (by decide) (by decide) (by decide) (by decide)).2.2 rfl⟩

/-- C3 counterexample: the source property `doc0` exists and has an
embedding, and the document store fails during the similarity search, yet
`get_property_recommendations` returns the empty list — the blanket
`except Exception` at src/services/elasticsearch_service.py:490-492
swallows the store failure instead of surfacing it, giving exactly the
same outcome as a missing source property. -/
theorem store_failure_mapped_to_empty_cex :
    doc0.embedding ≠ none ∧
    get_property_recommendations "p1" (.ok doc0)
      (fun _ _ => .error "ConnectionError: search failed") 5 = [] ∧
    get_property_recommendations "p1" (.error "NotFoundError")
      (fun _ _ => .error "ConnectionError: search failed") 5 = [] :=
  ⟨by decide, rfl, rfl⟩

/-- C3 amended: in the recommendation operation a missing source property
is mapped to an empty result (not a fatal error) — and so is every other
failure: a fetch failure, a source document without an embedding, and a
document-store failure during the similarity search are all caught and
mapped to the same empty list, so the missing-property and store-failure
conditions are conflated rather than distinguished. -/
theorem recommendations_map_all_failures_to_empty (pid : String)
    (fetch : Except String PropertyDoc)
    (search : Json → Nat → Except String (List PropertyDoc)) (limit : Nat) :
    (∀ e, fetch = .error e →
      get_property_recommendations pid fetch search limit = []) ∧
    (∀ d, fetch = .ok d → d.embedding = none →
      get_property_recommendations pid fetch search limit = []) ∧
    (∀ d vec e, fetch = .ok d → d.embedding = some vec →
      search (recommendation_query pid vec) limit = .error e →
      get_property_recommendations pid fetch search limit = []) := by
  refine ⟨?_, ?_, ?_⟩
  · intro e he
    simp [get_property_recommendations, get_property_by_id, he]
  · intro d hd hemb
    simp [get_property_recommendations, get_property_by_id, hd, hemb]
  · intro d vec e hd hemb hsearch
    simp [get_property_recommendations, get_property_by_id, hd, hemb, hsearch]

/-- C3 amended, witness: a store failure during the similarity search for
source `doc0` yields the empty list. -/
theorem recommendations_map_all_failures_to_empty_witness :
    get_property_recommendations "p1" (.ok doc0)
      (fun _ _ => .error "connection timed out") 5 = [] :=
  (recommendations_map_all_failures_to_empty "p1" (.ok doc0)
      (fun _ _ => .error "connection timed out") 5).2.2
    doc0 [1, 0, 0] "connection timed out" rfl rfl rfl

/-- C6: (i) a fetched source document without an embedding yields the
empty list (and the operation is a total function — it never errors);
(ii) the issued similarity query matches a stored document exactly when
the document's `property_id` differs from the source id and its
`property_status` is "available" (must_not term + filter term of
src/services/elasticsearch_service.py:465-474); (iii) its script scores by
`cosineSimilarity(params.query_vector, 'embedding') + 1.0` with the source
embedding as the query vector; therefore (iv) over any catalog and any
store-chosen order, returned candidates never include the source id and
all satisfy `property_status = "available"`. -/
theorem recommendations_exclude_source_and_filter_available (pid : String)
    (fetch : Except String PropertyDoc) (catalog : List PropertyDoc) (limit : Nat) :
    (∀ d, fetch = .ok d → d.embedding = none →
      get_property_recommendations pid fetch (execStore catalog) limit = []) ∧
    (∀ vec d, evalRecQuery d (recommendation_query pid vec) =
      ((!(d.property_id == pid)) && (d.property_status == "available"))) ∧
    (∀ vec, scriptSourceOf (recommendation_query pid vec) =
        some (.str "cosineSimilarity(params.query_vector, \x27embedding\x27) + 1.0") ∧
      scriptQueryVectorOf (recommendation_query pid vec) =
        some (.arr (vec.map Json.num))) ∧
    (∀ r, r ∈ get_property_recommendations pid fetch (execStore catalog) limit →
      r.property_id ≠ pid ∧ r.property_status = "available") := by
  refine ⟨?_, ?_, ?_, ?_⟩
  · intro d hd hemb
    simp [get_property_recommendations, get_property_by_id, hd, hemb]
  · intro vec d
    rfl
  · intro vec
    exact ⟨rfl, rfl⟩
  · intro r hr
    match hfetch : fetch with
    | .error e =>
      simp [get_property_recommendations, get_property_by_id] at hr
    | .ok d =>
      match hemb : d.embedding with
      | none =>
        simp [get_property_recommendations, get_property_by_id, hemb] at hr
      | some vec =>
        simp only [get_property_recommendations, get_property_by_id, hemb,
          execStore, execSearch] at hr
        have hr2 := List.take_subset limit _ hr
        have hmem := List.mem_filter.mp hr2
        have heval : ((!(r.property_id == pid)) &&
            (r.property_status == "available")) = true := hmem.2
        simp only [Bool.and_eq_true, Bool.not_eq_true', beq_eq_false_iff_ne,
          beq_iff_eq] at heval
        exact heval

/-- C6 witness: over the concrete catalog `catalog0` the candidate `docP2`
is returned and indeed differs from the source id and is available. -/
theorem recommendations_exclude_source_and_filter_available_witness :
    docP2.property_id ≠ "p1" ∧ docP2.property_status = "available" :=
  (recommendations_exclude_source_and_filter_available "p1" (.ok doc0)
      catalog0 5).2.2.2 docP2 (by decide)

/-- C7: when the count operation and the 100-document sample both succeed,
the stats endpoint succeeds; its `total_properties` equals the store's
exact count result for every sample (so it is independent of the sample),
and each facet list (property types, platforms, cities) is truncated with
`[:20]`, hence holds at most 20 distinct values even when the sampled
documents contain more.  The sample itself is whatever the store returns
for the `size=100` request issued at src/main.py:487-490. -/
theorem stats_facets_bounded_total_exact (project_id : String)
    (exec_count : Except String Nat)
    (exec_sample : Nat → Except String (List StatsSource))
    (total : Nat) (hits : List StatsSource)
    (hcount : exec_count = .ok total)
    (hsample : exec_sample 100 = .ok hits) :
    (get_stats true project_id exec_count exec_sample).isOk = true ∧
    ∀ r, get_stats true project_id exec_count exec_sample = .ok r →
      r.total_properties = total ∧
      r.property_types.length ≤ 20 ∧
      r.platforms.length ≤ 20 ∧
      r.cities.length ≤ 20 := by
  constructor
  · simp [get_stats, hcount, hsample, Except.isOk, Except.toBool]
  · intro r hr
    simp only [get_stats, hcount, hsample, Bool.not_true, Bool.false_eq_true,
      if_false, Except.ok.injEq] at hr
    subst hr
    refine ⟨rfl, ?_, ?_, ?_⟩ <;>
      exact List.length_take_le 20 _

/-- C7 witness: a concrete count of 12345 and the concrete three-document
sample `sample0`. -/
theorem stats_facets_bounded_total_exact_witness :
    (get_stats true "data-417505" (.ok 12345) (fun _ => .ok sample0)).isOk = true :=
  (stats_facets_bounded_total_exact "data-417505" (.ok 12345)
      (fun _ => .ok sample0) 12345 sample0 rfl rfl).1

/-- C8: for both configuration classes, constructing the settings object
(which pydantic does at module load, i.e. at startup) succeeds exactly when
both weights lie in the closed interval [0,1]; the value 1.2 is rejected
with the configuration error "Weight must be between 0 and 1" by both
validators, and the boundary values 0 and 1 are both accepted. -/
theorem weight_validation_boundary_inclusive (wv wk : Rat) :
    ((mkSettings wv wk).isOk = true ↔
      (0 ≤ wv ∧ wv ≤ 1) ∧ (0 ≤ wk ∧ wk ≤ 1)) ∧
    ((mkProductionSettings wv wk).isOk = true ↔
      (0 ≤ wv ∧ wv ≤ 1) ∧ (0 ≤ wk ∧ wk ≤ 1)) ∧
    validate_weights 1.2 = .error "Weight must be between 0 and 1" ∧
    production_validate_weights 1.2 = .error "Weight must be between 0 and 1" ∧
    validate_weights 0 = .ok 0 ∧ validate_weights 1 = .ok 1 ∧
    production_validate_weights 0 = .ok 0 ∧ production_validate_weights 1 = .ok 1 := by
  refine ⟨?_, ?_, ?_, ?_, ?_, ?_, ?_, ?_⟩
  · by_cases h1 : 0 ≤ wv ∧ wv ≤ 1 <;> by_cases h2 : 0 ≤ wk ∧ wk ≤ 1 <;>
      simp [mkSettings, validate_weights, h1, h2, Except.isOk, Except.toBool]
  · by_cases h1 : 0 ≤ wv ∧ wv ≤ 1 <;> by_cases h2 : 0 ≤ wk ∧ wk ≤ 1 <;>
      simp [mkProductionSettings, production_validate_weights, h1, h2,
        Except.isOk, Except.toBool]
  · rw [validate_weights, if_pos (by norm_num)]
  · rw [production_validate_weights, if_pos (by norm_num)]
  · rw [validate_weights, if_neg (by norm_num)]
  · rw [validate_weights, if_neg (by norm_num)]
  · rw [production_validate_weights, if_neg (by norm_num)]
  · rw [production_validate_weights, if_neg (by norm_num)]

/-- C8 witness: the default weights 0.7 / 0.3 are accepted at
configuration time. -/
theorem weight_validation_boundary_inclusive_witness :
    (mkSettings 0.7 0.3).isOk = true :=
  (weight_validation_boundary_inclusive 0.7 0.3).1.mpr (by norm_num)

/-- C9: `generate_real_embedding` tries `models_to_try` strictly in order:
whenever the list splits as `pre ++ m :: rest` with every model in `pre`
failing and `m` returning a vector, the result is exactly `m`'s vector
(individual failures are non-fatal); and when every model in the list
fails, the overall result is the failure value `[]`. -/
theorem embedding_model_fallback_in_order
    (get_embedding : String → Option (List Rat)) :
    (∀ pre m rest v, models_to_try = pre ++ m :: rest →
      (∀ m2 ∈ pre, get_embedding m2 = none) → get_embedding m = some v →
      generate_real_embedding true true get_embedding = v) ∧
    ((∀ m ∈ models_to_try, get_embedding m = none) →
      generate_real_embedding true true get_embedding = []) := by
  constructor
  · intro pre m rest v hsplit hpre hm
    show tryModelsInOrder get_embedding models_to_try = v
    rw [hsplit]
    exact tryModelsInOrder_first_success get_embedding pre m rest v hpre hm
  · intro hall
    exact tryModelsInOrder_all_none get_embedding models_to_try hall

/-- C9 witness: with a backend where only the second model
"textembedding-gecko@002" succeeds, the provider returns that model's
vector. -/
theorem embedding_model_fallback_in_order_witness :
    generate_real_embedding true true get_embedding0 = [1, 2] :=
  (embedding_model_fallback_in_order get_embedding0).1
    ["textembedding-gecko@003"] "textembedding-gecko@002"
    ["textembedding-gecko@001", "text-multilingual-embedding-002"] [1, 2]
    rfl
    (by intro m2 hm2
        rcases List.mem_singleton.mp hm2 with rfl
        rfl)
    rfl
